import Mathlib

/-!
Shallow embedding of the TeXnique lobby/connection manager (`src/manager.go`)
and proofs of the specification claims about it.

The repository ships one source file, `manager.go`.  Definitions below are
translated from that file; components that live in files absent from the
sources (the OTP retention map, the client read/write pumps, the event-tag
constants) are modelled from the specification and carry a doc comment
beginning `Modelled from the spec:`.
-/

namespace TexManager

/-- The `GameState` string enum of `manager.go` (`waiting`, `playing`,
`finished`, `dne`). -/
inductive GameState
  | WaitingForPlayers
  | InPlay
  | Finished
  | DNE
  deriving DecidableEq, Repr

/-- Outcome of a Go function that either returns normally or panics. -/
inductive PanicOr (α : Type)
  | ok (a : α)
  | panicked (msg : String)
  deriving DecidableEq, Repr

/-- `Lobby.startGame` (manager.go:133-138): panics with
"Game is already in progress" unless the state is `WaitingForPlayers`;
otherwise sets the state to `InPlay`.  The Go method mutates
`lobby.gameState`; here it maps the old state to the new one. -/
def startGame (s : GameState) : PanicOr GameState :=
  if s ≠ GameState.WaitingForPlayers then
    PanicOr.panicked "Game is already in progress"
  else
    PanicOr.ok GameState.InPlay

/-- `Lobby.endGame` (manager.go:140-145): panics with
"Game isn\x27t in progress" unless the state is `InPlay`; otherwise sets the
state to `Finished`. -/
def endGame (s : GameState) : PanicOr GameState :=
  if s ≠ GameState.InPlay then
    PanicOr.panicked "Game isn\x27t in progress"
  else
    PanicOr.ok GameState.Finished

/-- `Lobby.inPlay` (manager.go:147-149). -/
def inPlay (s : GameState) : Bool :=
  s = GameState.InPlay

/-- The two calls that can touch a lobby's game state. -/
inductive LobbyCall
  | startGameCall
  | endGameCall
  deriving DecidableEq, Repr

/-- Effect of one call on the stored game state.  In the source the panic is
raised before the assignment, so a panicking call leaves the stored state
unchanged. -/
def applyCall (c : LobbyCall) (s : GameState) : GameState :=
  match c with
  | LobbyCall.startGameCall =>
    match startGame s with
    | PanicOr.ok s' => s'
    | PanicOr.panicked _ => s
  | LobbyCall.endGameCall =>
    match endGame s with
    | PanicOr.ok s' => s'
    | PanicOr.panicked _ => s

/-- The stored game state after a sequence of calls. -/
def runCalls (s : GameState) (cs : List LobbyCall) : GameState :=
  cs.foldl (fun t c => applyCall c t) s

/-- Position of a state along the chain `Waiting → InPlay → Finished`. -/
def rank : GameState → Nat
  | GameState.WaitingForPlayers => 0
  | GameState.InPlay => 1
  | GameState.Finished => 2
  | GameState.DNE => 3

/-- Modelled from the spec: one Token Store entry (`otp.go` is absent from
the sources) — the token value together with its creation time, in seconds. -/
structure OTP where
  key : String
  created : Nat
  deriving DecidableEq, Repr

/-- Modelled from the spec: the `RetentionMap` Token Store (`otp.go` is
absent from the sources) — the issued tokens still alive, plus the
configured time-to-live in seconds. -/
structure RetentionMap where
  entries : List OTP
  ttl : Nat
  deriving DecidableEq, Repr

/-- `NewRetentionMap(ctx, retentionPeriod)`: an empty store with the given
time-to-live.  `manager.go:125` instantiates it with a 5-second TTL. -/
def NewRetentionMap (ttl : Nat) : RetentionMap :=
  { entries := [], ttl := ttl }

/-- Modelled from the spec: `RetentionMap.NewOTP` generates a fresh unique
token and records it with its creation time.  The generated key (a UUID in
the implementation) is passed in as `key`. -/
def RetentionMap.NewOTP (rm : RetentionMap) (key : String) (now : Nat) : RetentionMap :=
  { rm with entries := rm.entries ++ [{ key := key, created := now }] }

/-- Modelled from the spec: `RetentionMap.VerifyOTP` succeeds only if the
token exists and its age is below the TTL; on success the token is removed
(single-use); on TTL expiry or unknown token it fails and the store is
unchanged. -/
def RetentionMap.VerifyOTP (rm : RetentionMap) (key : String) (now : Nat) :
    Bool × RetentionMap :=
  match rm.entries.find? (fun o => o.key == key) with
  | none => (false, rm)
  | some o =>
    if now - o.created < rm.ttl then
      (true, { rm with entries := rm.entries.filter (fun o => !(o.key == key)) })
    else
      (false, rm)

/-- Outcome of the `serveWS` admission checks: an HTTP status written before
upgrading, or admission of the connection. -/
inductive ServeWSOutcome
  | reject (code : Nat)
  | connected
  deriving DecidableEq, Repr

/-- The admission checks of `Manager.serveWS` (manager.go:242-267), in source
order: missing `otp` query parameter → 401; unknown lobby → 401; lobby
already `Finished` → 410; `VerifyOTP` failure → 401; otherwise the
connection is admitted.  `lobbyState` is the result of the registry lookup
and `verifyOk` the result `lobby.otps.VerifyOTP(otp)` would return. -/
def serveWSAdmission (otp : String) (lobbyState : Option GameState)
    (verifyOk : Bool) : ServeWSOutcome :=
  if otp = "" then ServeWSOutcome.reject 401
  else
    match lobbyState with
    | none => ServeWSOutcome.reject 401
    | some gs =>
      if gs = GameState.Finished then ServeWSOutcome.reject 410
      else if !verifyOk then ServeWSOutcome.reject 401
      else ServeWSOutcome.connected

/-- The `User` record of `manager.go` (hashed password, current question
index, score). -/
structure User where
  password : String
  questionNumber : Nat
  score : Nat
  deriving DecidableEq, Repr

/-- The `Problem` record of `manager.go` (title, description, LaTeX markup). -/
structure Problem where
  title : String
  description : String
  latex : String
  deriving DecidableEq, Repr

/-- Modelled from the spec: a `Client` is one live connection holding the
authenticated display name (`client.go` is absent from the sources;
`manager.go` uses only `client.name` and `client.egress`).  The `id` field
stands for Go object identity — two distinct connections are distinct
clients even when their names coincide. -/
structure Client where
  id : Nat
  name : String
  deriving DecidableEq, Repr

/-- The `Lobby` record of `manager.go:69-94`.  The transport-level members
(the mutex, the live connections inside each client) are represented by
their observable data. -/
structure Lobby where
  id : String
  name : String
  timeLimit : Nat
  startTime : Option Nat
  owner : Option String
  gameState : GameState
  userMapping : List (String × User)
  otpMapping : List (String × String)
  useCustom : Bool
  CustomProblems : List Problem
  CustomOrder : List Nat
  clients : List Client
  otps : RetentionMap
  deriving DecidableEq, Repr

/-- The `LobbyList` map from lobby UUID to lobby (manager.go:97). -/
abbrev LobbyList := List (String × Lobby)

/-- `NewLobby` (manager.go:114-131): a fresh lobby in `WaitingForPlayers`
with a 600-second time limit, no owner, no start time, empty registries and
a token store with a 5-second TTL.  `useCustom` starts at Go's zero value
`false`. -/
def NewLobby (name : String) (id : String) : Lobby :=
  { userMapping := []
    otpMapping := []
    timeLimit := 600
    id := id
    name := name
    owner := none
    gameState := GameState.WaitingForPlayers
    startTime := none
    useCustom := false
    clients := []
    otps := NewRetentionMap 5
    CustomProblems := []
    CustomOrder := [] }

/-- `Lobby.addClient` (manager.go:413-421): registers a client into the
lobby's client set. -/
def addClient (l : Lobby) (c : Client) : Lobby :=
  { l with clients := l.clients ++ [c] }

/-- `Lobby.removeClient` (manager.go:424-435): removes the client (closing
its connection) if present. -/
def removeClient (l : Lobby) (c : Client) : Lobby :=
  { l with clients := l.clients.filter (fun x => !(x == c)) }

/-- The shared tail of `Manager.loginHandler` after user lookup and
registration (manager.go:205-238): the `CheckPasswordHash` test against the
looked-up (or just-initialised) user's stored hash; on success the owner is
set if still unset and a fresh OTP is issued and recorded, on failure 401
with no token.  `checkFn` is the opaque `CheckPasswordHash` collaborator,
`freshOtp` the key generated by `NewOTP` and `now` its creation time. -/
def loginAuth (checkFn : String → String → Bool) (lobby : Lobby) (user : User)
    (username password freshOtp : String) (now : Nat) :
    Nat × Option String × Lobby :=
  if checkFn password user.password then
    let lobby2 := if lobby.owner = none then { lobby with owner := some username } else lobby
    (200, some freshOtp,
      { lobby2 with
        otps := lobby2.otps.NewOTP freshOtp now
        otpMapping := lobby2.otpMapping ++ [(freshOtp, username)] })
  else
    (401, none, lobby)

/-- The per-lobby part of `Manager.loginHandler` (manager.go:191-238): an
unseen username is first registered with the hash of the supplied password
(the zero-valued `User` with its `password` field set), then the single
authentication check of the source runs on the looked-up or just-registered
user.  `hashFn` is the opaque `HashPassword` collaborator. -/
def loginLobby (hashFn : String → String) (checkFn : String → String → Bool)
    (lobby : Lobby) (username password freshOtp : String) (now : Nat) :
    Nat × Option String × Lobby :=
  match lobby.userMapping.lookup username with
  | some user => loginAuth checkFn lobby user username password freshOtp now
  | none =>
    let user : User := { password := hashFn password, questionNumber := 0, score := 0 }
    loginAuth checkFn
      { lobby with userMapping := lobby.userMapping ++ [(username, user)] }
      user username password freshOtp now

/-- Result of one `loginHandler` request: HTTP status, the OTP returned in
the response body (if any), and the registry afterwards. -/
structure LoginResult where
  status : Nat
  otp : Option String
  lobbies : LobbyList
  deriving DecidableEq, Repr

/-- Writing an updated lobby back at its id (the effect of the in-place
pointer mutation in Go). -/
def setLobby (lobbies : LobbyList) (id : String) (l : Lobby) : LobbyList :=
  lobbies.map (fun p => if p.1 = id then (p.1, l) else p)

/-- `Manager.loginHandler` (manager.go:169-239), after request decoding: an
unknown lobby id is answered 404 with nothing changed; otherwise the
per-lobby login logic runs and its mutations land in the registry. -/
def loginHandler (hashFn : String → String) (checkFn : String → String → Bool)
    (lobbies : LobbyList) (lobbyId username password freshOtp : String)
    (now : Nat) : LoginResult :=
  match lobbies.lookup lobbyId with
  | none => { status := 404, otp := none, lobbies := lobbies }
  | some lobby =>
    let r := loginLobby hashFn checkFn lobby username password freshOtp now
    { status := r.1, otp := r.2.1, lobbies := setLobby lobbies lobbyId r.2.2 }

/-- One login request: username, password, fresh OTP key, issue time. -/
structure LoginReq where
  username : String
  password : String
  freshOtp : String
  now : Nat

/-- A sequence of login requests against one lobby. -/
def runLogins (hashFn : String → String) (checkFn : String → String → Bool)
    (lobby : Lobby) (reqs : List LoginReq) : Lobby :=
  reqs.foldl
    (fun l r => (loginLobby hashFn checkFn l r.username r.password r.freshOtp r.now).2.2)
    lobby

/-- The outbound wire events built in `serveWS` (`NewMemberEvent`,
`StartGameEvent`, `NewProblemEvent`; their records live in the absent
`event.go` and are modelled from the spec's payload list). -/
inductive OutEvent
  | newMember (name : String)
  | startGame (startTime : Nat) (timeLimit : Nat)
  | newProblem (p : Problem)
  | gameOver (score : Nat)
  deriving DecidableEq, Repr

/-- Modelled from the spec: `Client.getNewProblem` (`client.go` is absent
from the sources) — the connecting user's current problem, i.e. the problem
at the user's current problem index. -/
def getNewProblem (problems : List Problem) (questionNumber : Nat) : Problem :=
  problems.getD questionNumber { title := "", description := "", latex := "" }

/-- One iteration of the Waiting-state catch-up loop of `serveWS`
(manager.go:296-308) for the client `c`: the new-member broadcast is sent to
`c` unless its name equals the new client's, and the new client is sent a
new-member event carrying `c`'s name. -/
def catchupPerClient (newC : Client) (c : Client) : List (Nat × OutEvent) :=
  (if c.name ≠ newC.name then [(c.id, OutEvent.newMember newC.name)] else []) ++
  [(newC.id, OutEvent.newMember c.name)]

/-- The state-dependent catch-up of `Manager.serveWS` after admission
(manager.go:277-331), as the sequence of (recipient client id, event)
enqueues it performs.  `addClient` has already run, so the loop ranges over
`existing ++ [newC]`.  While `Waiting`, each client whose name differs from
the new client's receives the new-member broadcast and the new client is
sent one new-member event per client of the set; while `InPlay`, the new
client is sent the start-game event and then its user's current problem. -/
def serveWSPostAdmission (gs : GameState) (existing : List Client) (newC : Client)
    (startTime timeLimit : Nat) (problems : List Problem) (questionNumber : Nat) :
    List (Nat × OutEvent) :=
  let clients := existing ++ [newC]
  if gs = GameState.WaitingForPlayers then
    clients.flatMap (catchupPerClient newC)
  else if gs = GameState.InPlay then
    [(newC.id, OutEvent.startGame startTime timeLimit),
     (newC.id, OutEvent.newProblem (getNewProblem problems questionNumber))]
  else []

/-- The Waiting-state catch-up exactly as claim C7 words it: the new-member
broadcast reaches every existing client, and the new client is enqueued one
new-member event per existing member (and nothing else).  Kept for
comparison with `serveWSPostAdmission`. -/
def claimWaitingCatchup (existing : List Client) (newC : Client) :
    List (Nat × OutEvent) :=
  existing.map (fun c => (c.id, OutEvent.newMember newC.name)) ++
  existing.map (fun c => (newC.id, OutEvent.newMember c.name))

/-- `Manager.lobbyStatus` (manager.go:334-377), after request decoding: a
registered lobby reports its game state; an absent one reports `finished`
when a result record exists for the id and `dne` otherwise.
`resultRecordExists` is the results-lookup collaborator (the
`os.Stat` on `logs/<id>.result.json`). -/
def lobbyStatus (lobbies : LobbyList) (resultRecordExists : String → Bool)
    (id : String) : GameState :=
  match lobbies.lookup id with
  | some lobby => lobby.gameState
  | none =>
    if resultRecordExists id then GameState.Finished else GameState.DNE

/-- Modelled from the spec: the inbound event-tag constants (`event.go` is
absent from the sources; the wire tags are those of the spec's interface
list). -/
def EventStartGameOwner : String := "start-game-owner"

/-- Modelled from the spec: the `give-answer` inbound tag. -/
def EventGiveAnswer : String := "give-answer"

/-- Modelled from the spec: the `request-problem` inbound tag. -/
def EventRequestProblem : String := "request-problem"

/-- The wire `Event` envelope: tag plus raw JSON payload. -/
structure Event where
  type : String
  payload : String
  deriving DecidableEq, Repr

/-- `ErrEventNotSupported` (manager.go:31). -/
def ErrEventNotSupported : String := "this event type is not supported"

/-- The `EventHandler` function type (signature used by the `handlers` map;
handler bodies live in the absent `event.go`).  The result is the returned
Go error, `none` for nil. -/
def EventHandler : Type := Event → Client → Option String

/-- The static `handlers` map (manager.go:34-38), parameterised by the three
handler implementations. -/
def handlers (sgh gah rph : EventHandler) : List (String × EventHandler) :=
  [(EventStartGameOwner, sgh), (EventGiveAnswer, gah), (EventRequestProblem, rph)]

/-- `Manager.routeEvent` (manager.go:152-166): looks the event's tag up in
the static handler map, runs the handler if present, and otherwise returns
`ErrEventNotSupported`. -/
def routeEvent (sgh gah rph : EventHandler) (e : Event) (c : Client) :
    Option String :=
  match (handlers sgh gah rph).lookup e.type with
  | some h => h e c
  | none => some ErrEventNotSupported

/-- What the inbound pump observes in one iteration. -/
inductive InboundOutcome
  | frame (e : Event)
  | transportError

/-- Modelled from the spec: one iteration of the inbound pump (`client.go`
is absent from the sources): a transport error terminates the connection; a
decoded frame is routed through `routeEvent`, whose error is only reported —
the connection stays open.  Returns (connection still open, dispatch
error). -/
def readPumpStep (sgh gah rph : EventHandler) (inb : InboundOutcome)
    (c : Client) : Bool × Option String :=
  match inb with
  | InboundOutcome.transportError => (false, none)
  | InboundOutcome.frame e => (true, routeEvent sgh gah rph e c)

end TexManager

namespace TexManager

/-- C1: at the failing inputs — `startGame()` on a lobby not in `Waiting`,
`endGame()` on a lobby not in `InPlay` — the code panics (an abort) instead
of returning a recoverable `InvalidStateTransition` error; the stored state
is unchanged by the panicking call. -/
theorem startGame_endGame_panics_on_invalid_state :
    startGame GameState.InPlay = PanicOr.panicked "Game is already in progress" ∧
    startGame GameState.Finished = PanicOr.panicked "Game is already in progress" ∧
    endGame GameState.WaitingForPlayers = PanicOr.panicked "Game isn\x27t in progress" ∧
    endGame GameState.Finished = PanicOr.panicked "Game isn\x27t in progress" ∧
    applyCall LobbyCall.startGameCall GameState.InPlay = GameState.InPlay ∧
    applyCall LobbyCall.endGameCall GameState.Finished = GameState.Finished := by
  refine ⟨rfl, rfl, rfl, rfl, rfl, rfl⟩

theorem applyCall_rank_step (c : LobbyCall) (s : GameState) :
    rank s ≤ rank (applyCall c s) ∧ rank (applyCall c s) ≤ rank s + 1 := by
  cases c <;> cases s <;> simp [applyCall, startGame, endGame, rank]

/-- C2: starting from `Waiting`, every `startGame()`/`endGame()` call either
leaves the game state unchanged or advances it by exactly one position along
`Waiting → InPlay → Finished`: the state never moves backward and never
skips a state. -/
theorem gameState_monotone_no_skip (cs : List LobbyCall) (c : LobbyCall) :
    rank (runCalls GameState.WaitingForPlayers cs) ≤
      rank (runCalls GameState.WaitingForPlayers (cs ++ [c])) ∧
    rank (runCalls GameState.WaitingForPlayers (cs ++ [c])) ≤
      rank (runCalls GameState.WaitingForPlayers cs) + 1 := by
  have h : runCalls GameState.WaitingForPlayers (cs ++ [c]) =
      applyCall c (runCalls GameState.WaitingForPlayers cs) := by
    simp [runCalls, List.foldl_append]
  rw [h]
  exact applyCall_rank_step c (runCalls GameState.WaitingForPlayers cs)

/-- C3 counterexample: a present-but-invalid token for a known, already
`Finished` lobby is answered with 410, not the 401 the claim requires. -/
theorem serveWS_finished_invalid_token_gives_410 :
    serveWSAdmission "X" (some GameState.Finished) false = ServeWSOutcome.reject 410 ∧
    serveWSAdmission "X" (some GameState.Finished) false ≠ ServeWSOutcome.reject 401 := by
  constructor
  · rfl
  · decide

/-- C3 (amended): the upgrade request is answered 401 when the token is
missing or the lobby id is unknown; 410 when the lobby is known and already
`Finished`, regardless of token validity; otherwise 401 exactly when token
verification fails, and the connection is admitted when it succeeds. -/
theorem serveWS_status_mapping (otp : String) (ls : Option GameState) (v : Bool) :
    serveWSAdmission otp ls v =
      if otp = "" ∨ ls = none then ServeWSOutcome.reject 401
      else if ls = some GameState.Finished then ServeWSOutcome.reject 410
      else if v then ServeWSOutcome.connected
      else ServeWSOutcome.reject 401 := by
  rcases ls with _ | gs
  · by_cases h : otp = "" <;> simp [serveWSAdmission, h]
  · by_cases h : otp = "" <;> cases gs <;> cases v <;>
      simp [serveWSAdmission, h]

theorem find?_filter_self_none (key : String) (l : List OTP) :
    (l.filter (fun o => !(o.key == key))).find? (fun o => o.key == key) = none := by
  rw [List.find?_eq_none]
  intro x hx
  rcases List.mem_filter.mp hx with ⟨_, hpx⟩
  simpa using hpx

/-- C4: a token admits at most one connection.  (1) After a successful
verification the same token always fails to verify again (it was removed
from the store).  (2) A token whose age has reached the TTL fails to
verify.  (3) With the 5-second TTL configured at lobby creation, a token
verified 5 or more seconds after issuance fails.  (4) A failed verification
makes `serveWS` reject the upgrade with 401. -/
theorem token_single_use_and_ttl :
    (∀ (rm : RetentionMap) (key : String) (now now' : Nat),
      (rm.VerifyOTP key now).1 = true →
      ((rm.VerifyOTP key now).2.VerifyOTP key now').1 = false) ∧
    (∀ (rm : RetentionMap) (key : String) (now : Nat) (o : OTP),
      rm.entries.find? (fun x => x.key == key) = some o →
      o.created + rm.ttl ≤ now →
      (rm.VerifyOTP key now).1 = false) ∧
    (∀ (key : String) (issued elapsed : Nat), 5 ≤ elapsed →
      (((NewRetentionMap 5).NewOTP key issued).VerifyOTP key (issued + elapsed)).1 = false) ∧
    (∀ (otp : String) (gs : GameState), otp ≠ "" → gs ≠ GameState.Finished →
      serveWSAdmission otp (some gs) false = ServeWSOutcome.reject 401) := by
  refine ⟨?_, ?_, ?_, ?_⟩
  · intro rm key now now' hok
    rcases hfind : rm.entries.find? (fun o => o.key == key) with _ | o
    · simp [RetentionMap.VerifyOTP, hfind] at hok
    · by_cases hage : now - o.created < rm.ttl
      · simp only [RetentionMap.VerifyOTP, hfind, if_pos hage,
          find?_filter_self_none]
      · simp [RetentionMap.VerifyOTP, hfind, hage] at hok
  · intro rm key now o hfind hexp
    have hage : ¬ (now - o.created < rm.ttl) := by omega
    simp [RetentionMap.VerifyOTP, hfind, hage]
  · intro key issued elapsed hge
    have hage : ¬ (issued + elapsed - issued < 5) := by omega
    have hlt : ¬ elapsed < 5 := by omega
    simp [RetentionMap.VerifyOTP, NewRetentionMap, RetentionMap.NewOTP,
      List.find?, hage, hlt]
  · intro otp gs hne hnf
    unfold serveWSAdmission
    rw [if_neg hne]
    simp [hnf]

/-- Witness for `token_single_use_and_ttl` at concrete inputs. -/
theorem token_single_use_and_ttl_witness :
    ((((NewRetentionMap 5).NewOTP "tok" 0).VerifyOTP "tok" 1).2.VerifyOTP "tok" 2).1 = false ∧
    (((NewRetentionMap 5).NewOTP "tok" 0).VerifyOTP "tok" 7).1 = false ∧
    ((({ entries := [{ key := "tok", created := 0 }], ttl := 5 } :
      RetentionMap).VerifyOTP "tok" 9).1 = false) ∧
    serveWSAdmission "tok" (some GameState.WaitingForPlayers) false =
      ServeWSOutcome.reject 401 :=
  ⟨token_single_use_and_ttl.1 ((NewRetentionMap 5).NewOTP "tok" 0) "tok" 1 2 (by decide),
   token_single_use_and_ttl.2.2.1 "tok" 0 7 (by decide),
   token_single_use_and_ttl.2.1 _ "tok" 9 { key := "tok", created := 0 } (by decide) (by decide),
   token_single_use_and_ttl.2.2.2 "tok" GameState.WaitingForPlayers (by decide) (by decide)⟩

/-- C8: a lobby-status query reports the registered lobby's current game
state; for an absent id it reports `dne` when no result record exists and
`finished` when one does. -/
theorem lobbyStatus_spec (lobbies : LobbyList) (resultRecordExists : String → Bool)
    (id : String) :
    (∀ lobby, lobbies.lookup id = some lobby →
      lobbyStatus lobbies resultRecordExists id = lobby.gameState) ∧
    (lobbies.lookup id = none → resultRecordExists id = false →
      lobbyStatus lobbies resultRecordExists id = GameState.DNE) ∧
    (lobbies.lookup id = none → resultRecordExists id = true →
      lobbyStatus lobbies resultRecordExists id = GameState.Finished) := by
  refine ⟨?_, ?_, ?_⟩
  · intro lobby h
    simp [lobbyStatus, h]
  · intro h hr
    simp [lobbyStatus, h, hr]
  · intro h hr
    simp [lobbyStatus, h, hr]

/-- Witness for `lobbyStatus_spec` at concrete inputs: one registered lobby
`"a"` (still waiting), a result record only for `"b"`. -/
theorem lobbyStatus_spec_witness :
    lobbyStatus [("a", NewLobby "n" "a")] (fun s => s == "b") "a" =
      GameState.WaitingForPlayers ∧
    lobbyStatus [("a", NewLobby "n" "a")] (fun s => s == "b") "c" = GameState.DNE ∧
    lobbyStatus [("a", NewLobby "n" "a")] (fun s => s == "b") "b" =
      GameState.Finished :=
  ⟨(lobbyStatus_spec [("a", NewLobby "n" "a")] (fun s => s == "b") "a").1
      (NewLobby "n" "a") rfl,
   (lobbyStatus_spec [("a", NewLobby "n" "a")] (fun s => s == "b") "c").2.1 rfl rfl,
   (lobbyStatus_spec [("a", NewLobby "n" "a")] (fun s => s == "b") "b").2.2 rfl rfl⟩

/-- C9: for a decoded event whose tag is none of `start-game-owner`,
`give-answer`, `request-problem`, dispatch returns `ErrEventNotSupported`
whatever the three handler implementations are (so no handler runs), and
the inbound pump keeps the connection open after such a dispatch error. -/
theorem routeEvent_unsupported (sgh gah rph : EventHandler) (e : Event) (c : Client)
    (h1 : e.type ≠ EventStartGameOwner) (h2 : e.type ≠ EventGiveAnswer)
    (h3 : e.type ≠ EventRequestProblem) :
    routeEvent sgh gah rph e c = some ErrEventNotSupported ∧
    readPumpStep sgh gah rph (InboundOutcome.frame e) c =
      (true, some ErrEventNotSupported) := by
  have hroute : routeEvent sgh gah rph e c = some ErrEventNotSupported := by
    have b1 : (e.type == EventStartGameOwner) = false := beq_eq_false_iff_ne.mpr h1
    have b2 : (e.type == EventGiveAnswer) = false := beq_eq_false_iff_ne.mpr h2
    have b3 : (e.type == EventRequestProblem) = false := beq_eq_false_iff_ne.mpr h3
    unfold routeEvent handlers
    simp [List.lookup, b1, b2, b3]
  exact ⟨hroute, by simp [readPumpStep, hroute]⟩

/-- Witness for `routeEvent_unsupported` on the unknown tag `"bogus"`. -/
theorem routeEvent_unsupported_witness :
    routeEvent (fun _ _ => none) (fun _ _ => none) (fun _ _ => none)
      { type := "bogus", payload := "" } { id := 0, name := "x" } =
      some ErrEventNotSupported ∧
    readPumpStep (fun _ _ => none) (fun _ _ => none) (fun _ _ => none)
      (InboundOutcome.frame { type := "bogus", payload := "" })
      { id := 0, name := "x" } = (true, some ErrEventNotSupported) :=
  routeEvent_unsupported (fun _ _ => none) (fun _ _ => none) (fun _ _ => none)
    { type := "bogus", payload := "" } { id := 0, name := "x" }
    (by decide) (by decide) (by decide)

theorem lookup_append_left_none {α β : Type} [BEq α] (l1 l2 : List (α × β)) (a : α)
    (h : l1.lookup a = none) : (l1 ++ l2).lookup a = l2.lookup a := by
  induction l1 with
  | nil => simp
  | cons p rest ih =>
    rcases p with ⟨k, v⟩
    rw [List.lookup] at h
    rw [List.cons_append, List.lookup]
    cases hb : a == k
    · rw [hb] at h
      exact ih h
    · rw [hb] at h
      simp at h

theorem lookup_setLobby (lobbies : LobbyList) (id : String) (l : Lobby)
    (h : (lobbies.lookup id).isSome) :
    (setLobby lobbies id l).lookup id = some l := by
  induction lobbies with
  | nil => simp [List.lookup] at h
  | cons p rest ih =>
    rcases p with ⟨k, v⟩
    by_cases hk : k = id
    · subst hk
      have hmap : setLobby ((k, v) :: rest) k l = (k, l) :: setLobby rest k l := by
        simp [setLobby]
      rw [hmap, List.lookup]
      simp
    · have hb : (id == k) = false := beq_eq_false_iff_ne.mpr (Ne.symm hk)
      simp only [List.lookup, hb] at h
      simp only [setLobby, List.map_cons, if_neg hk]
      rw [List.lookup, hb]
      exact ih h

theorem loginAuth_fst (checkFn : String → String → Bool) (lobby : Lobby) (user : User)
    (username password freshOtp : String) (now : Nat) :
    (loginAuth checkFn lobby user username password freshOtp now).1 =
      if checkFn password user.password then 200 else 401 := by
  by_cases hc : checkFn password user.password <;> simp [loginAuth, hc]

theorem loginAuth_otp (checkFn : String → String → Bool) (lobby : Lobby) (user : User)
    (username password freshOtp : String) (now : Nat) :
    (loginAuth checkFn lobby user username password freshOtp now).2.1 =
      if checkFn password user.password then some freshOtp else none := by
  by_cases hc : checkFn password user.password <;> simp [loginAuth, hc]

theorem loginAuth_userMapping (checkFn : String → String → Bool) (lobby : Lobby)
    (user : User) (username password freshOtp : String) (now : Nat) :
    (loginAuth checkFn lobby user username password freshOtp now).2.2.userMapping =
      lobby.userMapping := by
  by_cases hc : checkFn password user.password
  · by_cases ho : lobby.owner = none <;> simp [loginAuth, hc, ho]
  · simp [loginAuth, hc]

theorem loginAuth_owner (checkFn : String → String → Bool) (lobby : Lobby)
    (user : User) (username password freshOtp : String) (now : Nat) :
    (loginAuth checkFn lobby user username password freshOtp now).2.2.owner =
      if checkFn password user.password ∧ lobby.owner = none then some username
      else lobby.owner := by
  by_cases hc : checkFn password user.password
  · by_cases ho : lobby.owner = none <;> simp [loginAuth, hc, ho]
  · simp [loginAuth, hc]

theorem loginLobby_owner (hashFn : String → String) (checkFn : String → String → Bool)
    (lobby : Lobby) (username password freshOtp : String) (now : Nat) :
    (loginLobby hashFn checkFn lobby username password freshOtp now).2.2.owner =
      if (loginLobby hashFn checkFn lobby username password freshOtp now).1 = 200 ∧
          lobby.owner = none
      then some username else lobby.owner := by
  cases hfind : lobby.userMapping.lookup username with
  | none =>
    simp only [loginLobby, hfind]
    rw [loginAuth_owner, loginAuth_fst]
    by_cases hc : checkFn password
        (User.password { password := hashFn password, questionNumber := 0, score := 0 }) <;>
      simp [hc]
  | some user =>
    simp only [loginLobby, hfind]
    rw [loginAuth_owner, loginAuth_fst]
    by_cases hc : checkFn password user.password <;> simp [hc]

theorem runLogins_owner_preserved (hashFn : String → String)
    (checkFn : String → String → Bool) (reqs : List LoginReq) (lobby : Lobby)
    (v : String) (h : lobby.owner = some v) :
    (runLogins hashFn checkFn lobby reqs).owner = some v := by
  induction reqs generalizing lobby with
  | nil => simpa [runLogins] using h
  | cons r rest ih =>
    have hstep :
        (loginLobby hashFn checkFn lobby r.username r.password r.freshOtp r.now).2.2.owner =
          some v := by
      rw [loginLobby_owner]
      simp [h]
    have : runLogins hashFn checkFn lobby (r :: rest) =
        runLogins hashFn checkFn
          (loginLobby hashFn checkFn lobby r.username r.password r.freshOtp r.now).2.2
          rest := by
      simp [runLogins]
    rw [this]
    exact ih _ hstep

/-- C6: the lobby owner is written at most once.  A login never changes an
already-set owner (also across any sequence of logins); a successful login
on an ownerless lobby sets the owner to the authenticated username; an
unsuccessful one leaves the lobby ownerless. -/
theorem lobby_owner_set_once (hashFn : String → String)
    (checkFn : String → String → Bool) :
    (∀ (lobby : Lobby) (username password freshOtp : String) (now : Nat) (v : String),
      lobby.owner = some v →
      (loginLobby hashFn checkFn lobby username password freshOtp now).2.2.owner = some v) ∧
    (∀ (lobby : Lobby) (username password freshOtp : String) (now : Nat),
      lobby.owner = none →
      (loginLobby hashFn checkFn lobby username password freshOtp now).1 = 200 →
      (loginLobby hashFn checkFn lobby username password freshOtp now).2.2.owner =
        some username) ∧
    (∀ (lobby : Lobby) (username password freshOtp : String) (now : Nat),
      lobby.owner = none →
      (loginLobby hashFn checkFn lobby username password freshOtp now).1 ≠ 200 →
      (loginLobby hashFn checkFn lobby username password freshOtp now).2.2.owner = none) ∧
    (∀ (lobby : Lobby) (reqs : List LoginReq) (v : String),
      lobby.owner = some v →
      (runLogins hashFn checkFn lobby reqs).owner = some v) := by
  refine ⟨?_, ?_, ?_, ?_⟩
  · intro lobby username password freshOtp now v h
    rw [loginLobby_owner]
    simp [h]
  · intro lobby username password freshOtp now h hs
    rw [loginLobby_owner]
    simp [h, hs]
  · intro lobby username password freshOtp now h hs
    rw [loginLobby_owner]
    simp [h, hs]
  · intro lobby reqs v h
    exact runLogins_owner_preserved hashFn checkFn reqs lobby v h

/-- Witness for `lobby_owner_set_once`: with identity hashing and equality
checking, alice's successful login on a fresh lobby makes her owner, a
failed login leaves the lobby ownerless, and bob's later successful login
does not displace alice. -/
theorem lobby_owner_set_once_witness :
    ((loginLobby (fun p => p) (fun p h => p == h) (NewLobby "n" "a")
        "alice" "pw" "otp1" 0).2.2.owner = some "alice") ∧
    ((loginLobby (fun p => p) (fun p h => p == h) (NewLobby "n" "a")
        "alice" "pw" "otp1" 0).2.2.owner = some "alice" →
      (loginLobby (fun p => p) (fun p h => p == h)
        (loginLobby (fun p => p) (fun p h => p == h) (NewLobby "n" "a")
          "alice" "pw" "otp1" 0).2.2
        "bob" "pw2" "otp2" 1).2.2.owner = some "alice") := by
  have hset := (lobby_owner_set_once (fun p => p) (fun p h => p == h)).2.1
    (NewLobby "n" "a") "alice" "pw" "otp1" 0 rfl (by decide)
  refine ⟨hset, ?_⟩
  intro h
  exact (lobby_owner_set_once (fun p => p) (fun p h => p == h)).1 _ "bob" "pw2" "otp2" 1
    "alice" h

/-- C5: a login against an unknown lobby id is answered 404 with no state
change; an unseen username is registered with the hash of the supplied
password and (the hash check passing on a just-made hash) the login succeeds
with the issued token; an existing username whose stored hash rejects the
supplied password is answered 401 with no token. -/
theorem loginHandler_spec (hashFn : String → String) (checkFn : String → String → Bool)
    (lobbies : LobbyList) (lobbyId username password freshOtp : String) (now : Nat) :
    (lobbies.lookup lobbyId = none →
      loginHandler hashFn checkFn lobbies lobbyId username password freshOtp now =
        { status := 404, otp := none, lobbies := lobbies }) ∧
    (∀ lobby, lobbies.lookup lobbyId = some lobby →
      lobby.userMapping.lookup username = none →
      checkFn password (hashFn password) = true →
      (loginHandler hashFn checkFn lobbies lobbyId username password freshOtp now).status
          = 200 ∧
      (loginHandler hashFn checkFn lobbies lobbyId username password freshOtp now).otp
          = some freshOtp ∧
      ∃ lobby1,
        (loginHandler hashFn checkFn lobbies lobbyId username password
            freshOtp now).lobbies.lookup lobbyId = some lobby1 ∧
        lobby1.userMapping.lookup username =
          some { password := hashFn password, questionNumber := 0, score := 0 }) ∧
    (∀ lobby user, lobbies.lookup lobbyId = some lobby →
      lobby.userMapping.lookup username = some user →
      checkFn password user.password = false →
      (loginHandler hashFn checkFn lobbies lobbyId username password freshOtp now).status
          = 401 ∧
      (loginHandler hashFn checkFn lobbies lobbyId username password freshOtp now).otp
          = none) := by
  refine ⟨?_, ?_, ?_⟩
  · intro h
    simp [loginHandler, h]
  · intro lobby hlook hfind hchk
    have hfst :
        (loginLobby hashFn checkFn lobby username password freshOtp now).1 = 200 := by
      simp only [loginLobby, hfind]
      rw [loginAuth_fst]
      simp [hchk]
    have hotp :
        (loginLobby hashFn checkFn lobby username password freshOtp now).2.1 =
          some freshOtp := by
      simp only [loginLobby, hfind]
      rw [loginAuth_otp]
      simp [hchk]
    have hmap :
        (loginLobby hashFn checkFn lobby username password freshOtp now).2.2.userMapping =
          lobby.userMapping ++
            [(username, { password := hashFn password, questionNumber := 0, score := 0 })] := by
      simp only [loginLobby, hfind]
      rw [loginAuth_userMapping]
    refine ⟨?_, ?_, ?_⟩
    · simp only [loginHandler, hlook]
      exact hfst
    · simp only [loginHandler, hlook]
      exact hotp
    · refine ⟨(loginLobby hashFn checkFn lobby username password freshOtp now).2.2, ?_, ?_⟩
      · simp only [loginHandler, hlook]
        exact lookup_setLobby lobbies lobbyId _ (by rw [hlook]; rfl)
      · rw [hmap, lookup_append_left_none _ _ _ hfind, List.lookup]
        simp
  · intro lobby user hlook hfind hchk
    have hfst :
        (loginLobby hashFn checkFn lobby username password freshOtp now).1 = 401 := by
      simp only [loginLobby, hfind]
      rw [loginAuth_fst]
      simp [hchk]
    have hotp :
        (loginLobby hashFn checkFn lobby username password freshOtp now).2.1 = none := by
      simp only [loginLobby, hfind]
      rw [loginAuth_otp]
      simp [hchk]
    constructor
    · simp only [loginHandler, hlook]
      exact hfst
    · simp only [loginHandler, hlook]
      exact hotp

/-- Witness for `loginHandler_spec` with identity hashing and equality
checking: unknown lobby `"X"` → 404 unchanged; alice's first login on lobby
`"L"` registers her and succeeds with the token; a wrong password against
her stored hash gives 401 and no token. -/
theorem loginHandler_spec_witness :
    (loginHandler (fun p => p) (fun p h => p == h) [("L", NewLobby "n" "L")]
        "X" "alice" "pw" "o" 0 =
      { status := 404, otp := none, lobbies := [("L", NewLobby "n" "L")] }) ∧
    ((loginHandler (fun p => p) (fun p h => p == h) [("L", NewLobby "n" "L")]
        "L" "alice" "pw" "o" 0).status = 200 ∧
     (loginHandler (fun p => p) (fun p h => p == h) [("L", NewLobby "n" "L")]
        "L" "alice" "pw" "o" 0).otp = some "o" ∧
     ∃ lobby1,
       (loginHandler (fun p => p) (fun p h => p == h) [("L", NewLobby "n" "L")]
          "L" "alice" "pw" "o" 0).lobbies.lookup "L" = some lobby1 ∧
       lobby1.userMapping.lookup "alice" =
         some { password := "pw", questionNumber := 0, score := 0 }) ∧
    ((loginHandler (fun p => p) (fun p h => p == h)
        [("L", { NewLobby "n" "L" with
                  userMapping := [("alice", { password := "pw", questionNumber := 0,
                                              score := 0 })] })]
        "L" "alice" "wrong" "o" 0).status = 401 ∧
     (loginHandler (fun p => p) (fun p h => p == h)
        [("L", { NewLobby "n" "L" with
                  userMapping := [("alice", { password := "pw", questionNumber := 0,
                                              score := 0 })] })]
        "L" "alice" "wrong" "o" 0).otp = none) :=
  ⟨(loginHandler_spec (fun p => p) (fun p h => p == h) [("L", NewLobby "n" "L")]
      "X" "alice" "pw" "o" 0).1 rfl,
   (loginHandler_spec (fun p => p) (fun p h => p == h) [("L", NewLobby "n" "L")]
      "L" "alice" "pw" "o" 0).2.1 (NewLobby "n" "L") rfl rfl rfl,
   (loginHandler_spec (fun p => p) (fun p h => p == h)
      [("L", { NewLobby "n" "L" with
                userMapping := [("alice", { password := "pw", questionNumber := 0,
                                            score := 0 })] })]
      "L" "alice" "wrong" "o" 0).2.2
     { NewLobby "n" "L" with
        userMapping := [("alice", { password := "pw", questionNumber := 0, score := 0 })] }
     { password := "pw", questionNumber := 0, score := 0 } rfl rfl rfl⟩

/-- C7 counterexample: with one existing member alice, the events enqueued
to the newly admitted bob are not one new-member event per existing member —
bob additionally receives a new-member event carrying his own name, because
the loop runs over the client set after `addClient`. -/
theorem catchup_not_only_existing_members :
    (serveWSPostAdmission GameState.WaitingForPlayers [{ id := 0, name := "alice" }]
        { id := 1, name := "bob" } 0 600 [] 0).filter (fun p => p.1 == 1) ≠
      (claimWaitingCatchup [{ id := 0, name := "alice" }]
        { id := 1, name := "bob" }).filter (fun p => p.1 == 1) := by
  decide

theorem filter_flatMap_catchup (newC : Client) (l : List Client)
    (h : ∀ c ∈ l, c.id ≠ newC.id ∨ c = newC) :
    (l.flatMap (catchupPerClient newC)).filter (fun p => p.1 == newC.id) =
      l.map (fun c => (newC.id, OutEvent.newMember c.name)) := by
  induction l with
  | nil => rfl
  | cons c rest ih =>
    have hc := h c (by simp)
    have hrest : ∀ x ∈ rest, x.id ≠ newC.id ∨ x = newC := fun x hx => h x (by simp [hx])
    rw [List.flatMap_cons, List.filter_append, ih hrest, List.map_cons]
    have hsmall : List.filter (fun p => p.1 == newC.id)
        [(newC.id, OutEvent.newMember c.name)] =
        [(newC.id, OutEvent.newMember c.name)] := by simp
    rcases hc with hne | heq
    · have hb : (c.id == newC.id) = false := beq_eq_false_iff_ne.mpr hne
      by_cases hn : c.name ≠ newC.name <;>
        simp [catchupPerClient, hn, hb]
    · subst heq
      simp [catchupPerClient]

/-- C7 (amended): after admission the catch-up depends on the lobby state.
If `Waiting`, every existing client whose name differs from the new
client's is enqueued a new-member event carrying the new client's name, and
the new client is enqueued one new-member event per member of the
post-`addClient` client set — the existing members and the new client
itself.  If `InPlay`, the new client is enqueued the start-game event (with
the lobby's start time and time limit) followed by that user's current
problem, in that order. -/
theorem catchup_state_dependent (existing : List Client) (newC : Client)
    (st tl : Nat) (ps : List Problem) (qn : Nat)
    (hid : ∀ c ∈ existing, c.id ≠ newC.id) :
    ((serveWSPostAdmission GameState.WaitingForPlayers existing newC st tl ps qn).filter
        (fun p => p.1 == newC.id) =
      (existing ++ [newC]).map (fun c => (newC.id, OutEvent.newMember c.name))) ∧
    (∀ c ∈ existing, c.name ≠ newC.name →
      (c.id, OutEvent.newMember newC.name) ∈
        serveWSPostAdmission GameState.WaitingForPlayers existing newC st tl ps qn) ∧
    (serveWSPostAdmission GameState.InPlay existing newC st tl ps qn =
      [(newC.id, OutEvent.startGame st tl),
       (newC.id, OutEvent.newProblem (getNewProblem ps qn))]) := by
  refine ⟨?_, ?_, ?_⟩
  · show ((existing ++ [newC]).flatMap (catchupPerClient newC)).filter
        (fun p => p.1 == newC.id) = _
    refine filter_flatMap_catchup newC (existing ++ [newC]) ?_
    intro c hcmem
    rcases List.mem_append.mp hcmem with hl | hr
    · exact Or.inl (hid c hl)
    · exact Or.inr (List.mem_singleton.mp hr)
  · intro c hcmem hname
    show (c.id, OutEvent.newMember newC.name) ∈
      (existing ++ [newC]).flatMap (catchupPerClient newC)
    rw [List.mem_flatMap]
    refine ⟨c, List.mem_append_left _ hcmem, ?_⟩
    simp [catchupPerClient, hname]
  · rfl

/-- Witness for `catchup_state_dependent`: alice is the one existing member
and bob joins. -/
theorem catchup_state_dependent_witness :
    ((serveWSPostAdmission GameState.WaitingForPlayers [{ id := 0, name := "alice" }]
        { id := 1, name := "bob" } 7 600 [] 0).filter (fun p => p.1 == 1) =
      [(1, OutEvent.newMember "alice"), (1, OutEvent.newMember "bob")]) ∧
    (((0 : Nat), OutEvent.newMember "bob") ∈
      serveWSPostAdmission GameState.WaitingForPlayers [{ id := 0, name := "alice" }]
        { id := 1, name := "bob" } 7 600 [] 0) ∧
    (serveWSPostAdmission GameState.InPlay [{ id := 0, name := "alice" }]
        { id := 1, name := "bob" } 7 600
        [{ title := "t", description := "d", latex := "x" }] 0 =
      [(1, OutEvent.startGame 7 600),
       (1, OutEvent.newProblem { title := "t", description := "d", latex := "x" })]) :=
  ⟨(catchup_state_dependent [{ id := 0, name := "alice" }] { id := 1, name := "bob" }
      7 600 [] 0 (by decide)).1,
   (catchup_state_dependent [{ id := 0, name := "alice" }] { id := 1, name := "bob" }
      7 600 [] 0 (by decide)).2.1 { id := 0, name := "alice" } (by decide) (by decide),
   (catchup_state_dependent [{ id := 0, name := "alice" }] { id := 1, name := "bob" }
      7 600 [{ title := "t", description := "d", latex := "x" }] 0 (by decide)).2.2⟩

/-- C10: the new client is in the client set when the Waiting-state
catch-up loop runs, so it receives a new-member event carrying its own name;
and because the broadcast skips by display name, an existing client whose
name equals the new client's receives nothing at all from the catch-up. -/
theorem catchup_self_event_and_name_skip (existing : List Client) (newC : Client)
    (st tl : Nat) (ps : List Problem) (qn : Nat) :
    ((newC.id, OutEvent.newMember newC.name) ∈
      serveWSPostAdmission GameState.WaitingForPlayers existing newC st tl ps qn) ∧
    (∀ c ∈ existing, c.name = newC.name → c.id ≠ newC.id →
      (∀ x ∈ existing, x.id = c.id → x = c) →
      (serveWSPostAdmission GameState.WaitingForPlayers existing newC st tl ps qn).filter
        (fun p => p.1 == c.id) = []) := by
  constructor
  · show (newC.id, OutEvent.newMember newC.name) ∈
      (existing ++ [newC]).flatMap (catchupPerClient newC)
    rw [List.mem_flatMap]
    refine ⟨newC, List.mem_append_right _ (List.mem_singleton.mpr rfl), ?_⟩
    simp [catchupPerClient]
  · intro c hcmem hname hcid huniq
    show ((existing ++ [newC]).flatMap (catchupPerClient newC)).filter
      (fun p => p.1 == c.id) = []
    rw [List.filter_eq_nil_iff]
    intro a ha
    rcases List.mem_flatMap.mp ha with ⟨x, hxmem, hax⟩
    rcases List.mem_append.mp hax with hbr | hsm
    · have hxname : x.name ≠ newC.name := by
        by_contra hxeq
        simp [hxeq] at hbr
      have hax1 : a.1 = x.id := by
        rcases (by simpa [hxname] using hbr : a = (x.id, OutEvent.newMember newC.name))
          with rfl
        rfl
      rcases List.mem_append.mp hxmem with hxl | hxr
      · intro hcontra
        have hxc : x.id = c.id := by
          have := beq_iff_eq.mp hcontra
          rw [hax1] at this
          exact this
        have := huniq x hxl hxc
        subst this
        exact hxname hname
      · have : x = newC := List.mem_singleton.mp hxr
        subst this
        intro hcontra
        have := beq_iff_eq.mp hcontra
        rw [hax1] at this
        exact hcid this.symm
    · have : a = (newC.id, OutEvent.newMember x.name) := by simpa using hsm
      subst this
      intro hcontra
      exact hcid ((beq_iff_eq.mp hcontra).symm)

/-- Witness for `catchup_self_event_and_name_skip`: a second connection
named alice joins while an existing client is also named alice — the new
connection is told about "alice" (itself included), the old one gets
nothing. -/
theorem catchup_self_event_and_name_skip_witness :
    (((1 : Nat), OutEvent.newMember "alice") ∈
      serveWSPostAdmission GameState.WaitingForPlayers [{ id := 0, name := "alice" }]
        { id := 1, name := "alice" } 0 600 [] 0) ∧
    ((serveWSPostAdmission GameState.WaitingForPlayers [{ id := 0, name := "alice" }]
        { id := 1, name := "alice" } 0 600 [] 0).filter (fun p => p.1 == 0) = []) :=
  ⟨(catchup_self_event_and_name_skip [{ id := 0, name := "alice" }]
      { id := 1, name := "alice" } 0 600 [] 0).1,
   (catchup_self_event_and_name_skip [{ id := 0, name := "alice" }]
      { id := 1, name := "alice" } 0 600 [] 0).2 { id := 0, name := "alice" }
     (by decide) (by decide) (by decide) (by decide)⟩

end TexManager
